import Mathlib

/-!
Shallow embedding of the behavioral analysis core of the interview-api
repository: the `CheatingDetector` session state machine (src/core/detect.py)
and the `GazeCalibrator` (src/core/gaze_calibrator.py), together with proofs
settling the spec claims about them.

Modelling conventions:
* Python floats are modelled as `ℚ` throughout the detector (all constants in
  src/core/config.py are decimal literals, exactly representable); the
  clamp bounds of the calibrator, ±π/2 and ±π/3 force `ℝ` in
  `calibrated_gaze_prediction` only.
* `time.time()` reads are passed explicitly as a `now : ℚ` argument; each
  Python method that reads the wall clock takes it as a parameter here.
* `math.sqrt` appears in `_calculate_head_movement` only; the repository
  compares the resulting velocity against the nonnegative threshold
  `HEAD_MOVEMENT_THRESHOLD` and otherwise just stores it. We carry the
  squared velocity and compare against the squared threshold, which agrees
  with the source comparison because both sides are nonnegative
  (see `velocity_comparison_bridge` below).
* Python `None`/falsy-dict arguments become `Option`; absent dict keys read
  with `.get(k, 0)` become `Option ℚ` fields read with `.getD 0`.
* Fields `suspicious_events` and `gaze_off_screen_history` of
  `CheatingDetector.__init__`, and the pupil_positions entry of
  `calibration_data` in `GazeCalibrator.__init__`, are written once to an empty list and never read
  or appended anywhere in the repository; they are omitted from the state.
-/

/-- Configuration parameters, src/core/config.py `CheatingDetectionConfig`.
Counters and caps are Python ints used only as counts, hence `ℕ`. -/
structure Config where
  SUSPICIOUS_GAZE_THRESHOLD : ℚ
  CHEATING_GAZE_THRESHOLD : ℚ
  ALERT_COOLDOWN : ℚ
  DOWNWARD_GAZE_ANGLE : ℚ
  SIDE_GAZE_ANGLE : ℚ
  HEAD_MOVEMENT_THRESHOLD : ℚ
  REPEATED_MOVEMENT_COUNT : ℕ
  MAX_DOWNWARD_LOOKS : ℕ
  MAX_SIDE_LOOKS : ℕ
  MAX_HEAD_TURNS : ℕ
  MAX_SUSPICION_SCORE : ℚ
  HIGH_SUSPICION_THRESHOLD : ℚ
  LOOKING_AWAY_PENALTY : ℚ
  DOWNWARD_LOOK_PENALTY : ℚ
  SIDE_LOOK_PENALTY : ℚ
  HEAD_MOVEMENT_PENALTY : ℚ
  DURATION_MULTIPLIER : ℚ
  RECOVERY_RATE : ℚ
  deriving DecidableEq

/-- The class-level default values of `CheatingDetectionConfig`
(moderate mode), src/core/config.py lines 12-37. -/
def defaultConfig : Config where
  SUSPICIOUS_GAZE_THRESHOLD := 3
  CHEATING_GAZE_THRESHOLD := 5
  ALERT_COOLDOWN := 10
  DOWNWARD_GAZE_ANGLE := 0.3
  SIDE_GAZE_ANGLE := 0.5
  HEAD_MOVEMENT_THRESHOLD := 0.4
  REPEATED_MOVEMENT_COUNT := 3
  MAX_DOWNWARD_LOOKS := 10
  MAX_SIDE_LOOKS := 8
  MAX_HEAD_TURNS := 15
  MAX_SUSPICION_SCORE := 100
  HIGH_SUSPICION_THRESHOLD := 70
  LOOKING_AWAY_PENALTY := 0.5
  DOWNWARD_LOOK_PENALTY := 1
  SIDE_LOOK_PENALTY := 1.5
  HEAD_MOVEMENT_PENALTY := 2
  DURATION_MULTIPLIER := 2
  RECOVERY_RATE := -0.2

/-- A calibrated-gaze sample as the detector reads it: the
`calibrated_yaw`, `calibrated_pitch` and `confidence` keys accessed in
`analyze_gaze_behavior`, src/core/detect.py lines 96-98. -/
structure GazeSample where
  calibrated_yaw : ℚ
  calibrated_pitch : ℚ
  confidence : ℚ
  deriving DecidableEq

/-- The facial structure record produced by
`GazeCalibrator.analyze_facial_structure` (src/core/gaze_calibrator.py
lines 49-56). The detector only tests its presence; the calibrator reads
`face_dimensions` and `eye_distance`. -/
structure FacialStructure where
  face_dimensions : ℚ × ℚ
  eye_distance : ℚ
  eye_center : ℚ × ℚ
  left_eye : ℚ × ℚ
  right_eye : ℚ × ℚ
  nose_tip : Option (ℚ × ℚ)
  deriving DecidableEq

/-- Pattern counters, `self.repeated_patterns`, src/core/detect.py
lines 80-84. -/
structure Patterns where
  downward_looks : ℕ
  side_looks : ℕ
  head_turns : ℕ
  deriving DecidableEq

/-- A message/severity/description entry of `ALERT_MESSAGES`,
src/core/config.py lines 69-90. -/
structure AlertInfo where
  message : String
  severity : String
  description : Option String
  deriving DecidableEq

/-- The static `ALERT_MESSAGES` table, src/core/config.py lines 69-90. -/
def alert_messages (reason : String) : Option AlertInfo :=
  if reason = "PROLONGED_DISTRACTION" then
    some { message := "Candidate looking away from screen for extended period",
           severity := "HIGH",
           description := some "May indicate reading notes or consulting external resources" }
  else if reason = "HIGH_SUSPICION" then
    some { message := "High suspicion score reached",
           severity := "HIGH",
           description := some "Multiple suspicious behaviors detected" }
  else if reason = "REPETITIVE_PATTERNS" then
    some { message := "Repetitive suspicious movement patterns detected",
           severity := "MEDIUM",
           description := some "Consistent looking away patterns may indicate systematic cheating" }
  else if reason = "RAPID_HEAD_MOVEMENT" then
    some { message := "Unusual head movement patterns",
           severity := "MEDIUM",
           description := some "Rapid or repetitive head movements may indicate communication with others" }
  else none

/-- One fired alert record, built in `_trigger_alert`, src/core/detect.py
lines 252-259. The source stamps it with `datetime.now().isoformat()`;
here that wall-clock instant is the `now` argument of the call. -/
structure CheatingAlert where
  timestamp : ℚ
  reason : String
  suspicion_score : ℚ
  total_away_time : ℚ
  patterns : Patterns
  alert_info : AlertInfo
  deriving DecidableEq

/-- The session-scoped mutable state of `CheatingDetector.__init__`,
src/core/detect.py lines 64-87. `head_movement_history` is the
`deque(maxlen=50)`, stored newest-first. -/
structure DetectorState where
  config : Config
  looking_away_start : Option ℚ
  cheating_alerts : List CheatingAlert
  last_alert_time : ℚ
  head_movement_history : List (ℚ × ℚ)
  alert_active : Bool
  total_looking_away_time : ℚ
  session_start_time : ℚ
  repeated_patterns : Patterns
  suspicion_score : ℚ
  deriving DecidableEq

/-- Fresh detector state: `CheatingDetector.__init__` with
`session_start_time = time.time()` passed as `sessionStart`. -/
def initState (cfg : Config) (sessionStart : ℚ) : DetectorState where
  config := cfg
  looking_away_start := none
  cheating_alerts := []
  last_alert_time := 0
  head_movement_history := []
  alert_active := false
  total_looking_away_time := 0
  session_start_time := sessionStart
  repeated_patterns := { downward_looks := 0, side_looks := 0, head_turns := 0 }
  suspicion_score := 0

/-- The extra_data dict merged into the full detection result,
src/core/detect.py lines 140-147. `head_movement_velocity_sq` is the
square of the `head_movement_velocity` of the source (see file header). -/
structure ExtraData where
  looking_away_duration : ℚ
  total_away_time : ℚ
  suspicion_score : ℚ
  head_movement_velocity_sq : ℚ
  yaw : ℚ
  pitch : ℚ
  confidence : ℚ
  deriving DecidableEq

/-- The detection-result dict, `_create_detection_result`, src/core/detect.py
lines 270-283: base keys always present, extra keys merged in when
`extra_data` is given. -/
structure DetectionResult where
  timestamp : ℚ
  is_looking_away : Bool
  alert_level : String
  suspicion_score : ℚ
  total_alerts : ℕ
  extra : Option ExtraData
  deriving DecidableEq

/-- `_create_detection_result`, src/core/detect.py lines 270-283. -/
def create_detection_result (s : DetectorState) (isAway : Bool) (level : String)
    (timestamp : ℚ) (extra : Option ExtraData) : DetectionResult where
  timestamp := timestamp
  is_looking_away := isAway
  alert_level := level
  suspicion_score := s.suspicion_score
  total_alerts := s.cheating_alerts.length
  extra := extra

/-- `_is_looking_away`, src/core/detect.py lines 150-160. -/
def is_looking_away (cfg : Config) (yaw pitch : ℚ) : Bool :=
  if pitch > cfg.DOWNWARD_GAZE_ANGLE then true
  else if |yaw| > cfg.SIDE_GAZE_ANGLE then true
  else false

/-- The looking-away duration tracking of `analyze_gaze_behavior`,
src/core/detect.py lines 107-120. Returns the updated state and
`looking_away_duration`. On entering the away state the source sets
`looking_away_start = now` and then computes `now - looking_away_start`. -/
def track_looking_away (s : DetectorState) (isAway : Bool) (now : ℚ) :
    DetectorState × ℚ :=
  if isAway then
    match s.looking_away_start with
    | none => ({ s with looking_away_start := some now }, now - now)
    | some t0 => (s, now - t0)
  else
    match s.looking_away_start with
    | some t0 =>
        ({ s with
            total_looking_away_time := s.total_looking_away_time + (now - t0),
            looking_away_start := none }, 0)
    | none => (s, 0)

/-- `_calculate_head_movement`, src/core/detect.py lines 162-173, returning
the squared velocity (the source returns
`math.sqrt((yaw - prev_yaw)**2 + (pitch - prev_pitch)**2)`). The current
pose is pushed onto the 50-bounded deque first; if it held fewer than one
prior entry the velocity is 0, else the distance to the previous newest. -/
def calculate_head_movement (s : DetectorState) (yaw pitch : ℚ) :
    DetectorState × ℚ :=
  let s' := { s with
    head_movement_history := ((yaw, pitch) :: s.head_movement_history).take 50 }
  match s.head_movement_history with
  | [] => (s', 0)
  | prev :: _ => (s', (yaw - prev.1) ^ 2 + (pitch - prev.2) ^ 2)

/-- `_update_pattern_detection`, src/core/detect.py lines 175-185. The
`current_time` parameter is accepted and unused, as in the source. -/
def update_pattern_detection (s : DetectorState) (yaw pitch now : ℚ) :
    DetectorState :=
  let p0 := s.repeated_patterns
  let p1 := if pitch > s.config.DOWNWARD_GAZE_ANGLE then
      { p0 with downward_looks := p0.downward_looks + 1 } else p0
  let p2 := if |yaw| > s.config.SIDE_GAZE_ANGLE then
      { p1 with side_looks := p1.side_looks + 1 } else p1
  let p3 := if |yaw| > s.config.HEAD_MOVEMENT_THRESHOLD then
      { p2 with head_turns := p2.head_turns + 1 } else p2
  let _ := now
  { s with repeated_patterns := p3 }

/-- `_calculate_suspicion_increase`, src/core/detect.py lines 187-215.
`velSq` is the squared head velocity; the comparison in the source
`velocity > HEAD_MOVEMENT_THRESHOLD` becomes
`velSq > HEAD_MOVEMENT_THRESHOLD ^ 2` (equivalent for the nonnegative
threshold, `velocity_comparison_bridge`). Note the final
`if not is_looking_away: increase = RECOVERY_RATE` overwrite from the
source is kept as the last step. -/
def calculate_suspicion_increase (cfg : Config) (isAway : Bool)
    (duration velSq yaw pitch : ℚ) : ℚ :=
  let increase : ℚ := 0
  let increase :=
    if isAway then
      let i1 := increase + cfg.LOOKING_AWAY_PENALTY
      let i2 := if pitch > cfg.DOWNWARD_GAZE_ANGLE then
          i1 + cfg.DOWNWARD_LOOK_PENALTY else i1
      if |yaw| > cfg.SIDE_GAZE_ANGLE * 1.5 then
          i2 + cfg.SIDE_LOOK_PENALTY else i2
    else increase
  let increase :=
    if velSq > cfg.HEAD_MOVEMENT_THRESHOLD ^ 2 then
      increase + cfg.HEAD_MOVEMENT_PENALTY else increase
  let increase :=
    if duration > cfg.SUSPICIOUS_GAZE_THRESHOLD then
      increase * cfg.DURATION_MULTIPLIER else increase
  if isAway then increase else cfg.RECOVERY_RATE

/-- `_trigger_alert`, src/core/detect.py lines 247-261. -/
def trigger_alert (s : DetectorState) (reason : String) (now : ℚ) :
    DetectorState :=
  let alert : CheatingAlert :=
    { timestamp := now
      reason := reason
      suspicion_score := s.suspicion_score
      total_away_time := s.total_looking_away_time
      patterns := s.repeated_patterns
      alert_info := (alert_messages reason).getD
        { message := reason, severity := "MEDIUM", description := none } }
  { s with
      last_alert_time := now
      alert_active := true
      cheating_alerts := s.cheating_alerts ++ [alert] }

/-- `_determine_alert_level`, src/core/detect.py lines 217-245. Returns the
alert level together with the (possibly alert-extended) state. -/
def determine_alert_level (s : DetectorState) (looking_away_duration now : ℚ) :
    String × DetectorState :=
  if now - s.last_alert_time < s.config.ALERT_COOLDOWN then
    if s.alert_active then ("ONGOING_ALERT", s) else ("NO_ALERT", s)
  else if s.suspicion_score > s.config.HIGH_SUSPICION_THRESHOLD then
    ("CHEATING_DETECTED", trigger_alert s "HIGH_SUSPICION" now)
  else if looking_away_duration > s.config.CHEATING_GAZE_THRESHOLD then
    ("CHEATING_DETECTED", trigger_alert s "PROLONGED_DISTRACTION" now)
  else if looking_away_duration > s.config.SUSPICIOUS_GAZE_THRESHOLD then
    ("SUSPICIOUS_BEHAVIOR", s)
  else if s.repeated_patterns.downward_looks > s.config.MAX_DOWNWARD_LOOKS
      || s.repeated_patterns.side_looks > s.config.MAX_SIDE_LOOKS
      || s.repeated_patterns.head_turns > s.config.MAX_HEAD_TURNS then
    ("CHEATING_DETECTED", trigger_alert s "REPETITIVE_PATTERNS" now)
  else
    ("NO_ALERT", { s with alert_active := false })

/-- The body of `analyze_gaze_behavior` after the input guards,
src/core/detect.py lines 104-148. -/
def analyzeValid (s : DetectorState) (g : GazeSample) (now : ℚ) :
    DetectionResult × DetectorState :=
  let yaw := g.calibrated_yaw
  let pitch := g.calibrated_pitch
  let isAway := is_looking_away s.config yaw pitch
  let p := track_looking_away s isAway now
  let s1 := p.1
  let dur := p.2
  let q := calculate_head_movement s1 yaw pitch
  let s2 := q.1
  let velSq := q.2
  let s3 := update_pattern_detection s2 yaw pitch now
  let inc := calculate_suspicion_increase s3.config isAway dur velSq yaw pitch
  let s4 := { s3 with
    suspicion_score :=
      min s3.config.MAX_SUSPICION_SCORE (max 0 (s3.suspicion_score + inc)) }
  let r := determine_alert_level s4 dur now
  let s5 := r.2
  (create_detection_result s5 isAway r.1 now (some
    { looking_away_duration := dur
      total_away_time := s5.total_looking_away_time
      suspicion_score := s5.suspicion_score
      head_movement_velocity_sq := velSq
      yaw := yaw
      pitch := pitch
      confidence := g.confidence }), s5)

/-- `analyze_gaze_behavior`, src/core/detect.py lines 89-148. The
`frame_timestamp` parameter is accepted as in the source signature;
`now` is the `time.time()` read on line 91. Returns the detection result
and the updated state. -/
def analyze_gaze_behavior (s : DetectorState) (calibrated_gaze : Option GazeSample)
    (facial_structure : Option FacialStructure) (frame_timestamp now : ℚ) :
    DetectionResult × DetectorState :=
  let _ := frame_timestamp
  match calibrated_gaze, facial_structure with
  | some g, some _ =>
      if g.confidence < 0.3 then
        (create_detection_result s false "Low confidence gaze data" now none, s)
      else analyzeValid s g now
  | _, _ => (create_detection_result s false "No gaze data" now none, s)

/-- One entry of the behavior-analysis breakdown,
`_generate_behavior_analysis`, src/core/detect.py lines 300-312. -/
structure BehaviorEntry where
  count : ℕ
  description : String
  severity : String
  deriving DecidableEq

/-- The behavior-analysis mapping over the three pattern keys (present only
when the count is positive), src/core/detect.py lines 300-312. -/
structure BehaviorAnalysis where
  downward_looks : Option BehaviorEntry
  side_looks : Option BehaviorEntry
  head_turns : Option BehaviorEntry
  deriving DecidableEq

/-- `_generate_behavior_analysis`, src/core/detect.py lines 300-312, with
the static `BEHAVIOR_DESCRIPTIONS` strings of src/core/config.py. -/
def generate_behavior_analysis (s : DetectorState) : BehaviorAnalysis :=
  let entry (count : ℕ) (desc : String) : Option BehaviorEntry :=
    if count > 0 then
      some { count := count, description := desc,
             severity := if count > 10 then "HIGH"
                         else if count > 5 then "MEDIUM" else "LOW" }
    else none
  { downward_looks := entry s.repeated_patterns.downward_looks
      "Looking down (potentially reading notes or using phone)"
    side_looks := entry s.repeated_patterns.side_looks
      "Looking to the side (potentially viewing other screens or people)"
    head_turns := entry s.repeated_patterns.head_turns
      "Frequent head turning (potentially communicating with others)" }

/-- The session summary dict, `get_session_summary`, src/core/detect.py
lines 285-298. -/
structure SessionSummary where
  session_duration : ℚ
  total_alerts : ℕ
  total_looking_away_time : ℚ
  away_time_percentage : ℚ
  final_suspicion_score : ℚ
  repeated_patterns : Patterns
  alerts : List CheatingAlert
  behavior_analysis : BehaviorAnalysis
  deriving DecidableEq

/-- `get_session_summary`, src/core/detect.py lines 285-298; `now` is the
`time.time()` read on line 287. -/
def get_session_summary (s : DetectorState) (now : ℚ) : SessionSummary :=
  let session_duration := now - s.session_start_time
  { session_duration := session_duration
    total_alerts := s.cheating_alerts.length
    total_looking_away_time := s.total_looking_away_time
    away_time_percentage :=
      if session_duration > 0 then
        s.total_looking_away_time / session_duration * 100 else 0
    final_suspicion_score := s.suspicion_score
    repeated_patterns := s.repeated_patterns
    alerts := s.cheating_alerts
    behavior_analysis := generate_behavior_analysis s }

/-- `reset_patterns`, src/core/detect.py lines 314-317; `ℕ` subtraction
truncates at 0 exactly like `max(0, count - 1)` in the source. -/
def reset_patterns (s : DetectorState) : DetectorState :=
  { s with repeated_patterns :=
      { downward_looks := s.repeated_patterns.downward_looks - 1
        side_looks := s.repeated_patterns.side_looks - 1
        head_turns := s.repeated_patterns.head_turns - 1 } }

/-- Detector states reachable from a fresh session by any sequence of
`analyze_gaze_behavior` and `reset_patterns` calls. -/
inductive Reachable : DetectorState → Prop
  | init (cfg : Config) (sessionStart : ℚ) : Reachable (initState cfg sessionStart)
  | analyze (s : DetectorState) (cg : Option GazeSample)
      (fs : Option FacialStructure) (ts now : ℚ) : Reachable s →
      Reachable (analyze_gaze_behavior s cg fs ts now).2
  | reset (s : DetectorState) : Reachable s → Reachable (reset_patterns s)

/-- A concrete facial-structure record (the shape of the dummy face in
`detect_gazes`, src/core/detect.py lines 28-44) used in concrete instances. -/
def sampleStructure : FacialStructure where
  face_dimensions := (150, 200)
  eye_distance := 60
  eye_center := (0, -20)
  left_eye := (-30, -20)
  right_eye := (30, -20)
  nose_tip := some (0, 30)

/-- A detector state mid-session whose previous head pose was (1, 1) and
whose score is 50, used to exercise the head-movement branch concretely. -/
def headMoveState : DetectorState :=
  { initState defaultConfig 0 with
      suspicion_score := 50
      head_movement_history := [(1, 1)] }

/-- A confident straight-ahead gaze sample. -/
def attentiveGaze : GazeSample where
  calibrated_yaw := 0
  calibrated_pitch := 0
  confidence := 0.9

/-- The arguments of one `analyze_gaze_behavior` frame: the inputs
and the wall-clock instant of the call. -/
structure CallInput where
  calibrated_gaze : Option GazeSample
  facial_structure : Option FacialStructure
  frame_timestamp : ℚ
  now : ℚ

/-- Sequential per-frame invocation of `analyze_gaze_behavior`, threading
the detector state through a list of calls. -/
def run_calls (s : DetectorState) : List CallInput → DetectorState
  | [] => s
  | c :: rest =>
      run_calls (analyze_gaze_behavior s c.calibrated_gaze c.facial_structure
        c.frame_timestamp c.now).2 rest

/-- A raw gaze dict as read by the calibrator: the `yaw`/`pitch` keys are
accessed with `.get(k, 0)` (src/core/gaze_calibrator.py lines 68, 112-113),
hence optional with default 0. -/
structure RawGaze where
  yaw : Option ℚ
  pitch : Option ℚ
  deriving DecidableEq

/-- Face-size baseline, src/core/gaze_calibrator.py lines 84-89. The source
stores `np.std` (the square root of the population variance) under
`width_std`/`height_std`; the repository never reads those two entries, so
the rational variance is kept here instead of its irrational square root. -/
structure FaceBaseline where
  width : ℚ
  height : ℚ
  width_var : ℚ
  height_var : ℚ
  deriving DecidableEq

/-- Eye-distance baseline, src/core/gaze_calibrator.py lines 92-95; the
variance stands in for the never-read `np.std` entry as in `FaceBaseline`. -/
structure EyeBaseline where
  distance : ℚ
  distance_var : ℚ
  deriving DecidableEq

/-- Neutral head-pose baseline, src/core/gaze_calibrator.py lines 98-104;
the variances stand in for the never-read `np.std` entries. -/
structure HeadPoseBaseline where
  yaw : ℚ
  pitch : ℚ
  yaw_var : ℚ
  pitch_var : ℚ
  deriving DecidableEq

/-- The calibrator state, `GazeCalibrator.__init__`,
src/core/gaze_calibrator.py lines 9-20: the three optional baselines, the
adaptation window (30), the frame counter, and the calibration-data
accumulator lists. -/
structure GazeCalibrator where
  face_baseline : Option FaceBaseline
  eye_baseline : Option EyeBaseline
  head_pose_baseline : Option HeadPoseBaseline
  adaptation_frames : Nat
  frame_count : Nat
  face_dimensions : List (ℚ × ℚ)
  eye_distances : List ℚ
  head_poses : List (ℚ × ℚ)
  deriving DecidableEq

/-- A fresh calibrator, `GazeCalibrator.__init__`. -/
def initCalibrator : GazeCalibrator where
  face_baseline := none
  eye_baseline := none
  head_pose_baseline := none
  adaptation_frames := 30
  frame_count := 0
  face_dimensions := []
  eye_distances := []
  head_poses := []

/-- `np.mean` over a rational list (division by zero yields 0 in Lean; the
source only applies it to nonempty lists). -/
def mean (l : List ℚ) : ℚ := l.sum / l.length

/-- `np.std` squared: the population variance of a rational list. -/
def popVar (l : List ℚ) : ℚ := ((l.map (fun x => (x - mean l) ^ 2)).sum) / l.length

/-- `_establish_baseline`, src/core/gaze_calibrator.py lines 79-104: when
the accumulator is nonempty, recomputes all three baselines as means (and
population variances) over the entire accumulator. -/
def establish_baseline (c : GazeCalibrator) : GazeCalibrator :=
  if 0 < c.face_dimensions.length then
    { c with
        face_baseline := some
          { width := mean (c.face_dimensions.map Prod.fst)
            height := mean (c.face_dimensions.map Prod.snd)
            width_var := popVar (c.face_dimensions.map Prod.fst)
            height_var := popVar (c.face_dimensions.map Prod.snd) }
        eye_baseline := some
          { distance := mean c.eye_distances
            distance_var := popVar c.eye_distances }
        head_pose_baseline := some
          { yaw := mean (c.head_poses.map Prod.fst)
            pitch := mean (c.head_poses.map Prod.snd)
            yaw_var := popVar (c.head_poses.map Prod.fst)
            pitch_var := popVar (c.head_poses.map Prod.snd) } }
  else c

/-- `update_baseline`, src/core/gaze_calibrator.py lines 59-77: absent
facial structure is a no-op returning false; otherwise the sample is
appended, the counter incremented, and whenever the counter has reached
the adaptation window the baselines are (re-)established and true is
returned. -/
def update_baseline (c : GazeCalibrator) (g : RawGaze)
    (fs : Option FacialStructure) : Bool × GazeCalibrator :=
  match fs with
  | none => (false, c)
  | some f =>
      let c1 := { c with
        face_dimensions := c.face_dimensions ++ [f.face_dimensions]
        eye_distances := c.eye_distances ++ [f.eye_distance]
        head_poses := c.head_poses ++ [(g.yaw.getD 0, g.pitch.getD 0)]
        frame_count := c.frame_count + 1 }
      if c1.frame_count ≥ c1.adaptation_frames then (true, establish_baseline c1)
      else (false, c1)

/-- `is_calibrated`, src/core/gaze_calibrator.py lines 156-160. -/
def is_calibrated (c : GazeCalibrator) : Bool :=
  c.face_baseline.isSome && c.eye_baseline.isSome && c.head_pose_baseline.isSome

/-- `_calculate_confidence`, src/core/gaze_calibrator.py lines 139-154:
0 without a face baseline; otherwise the mean of the face-size and
eye-distance consistency scores. (The face-some/eye-none case would raise
in the source and is unreachable from `calibrated_gaze_prediction`.) -/
def calculate_confidence (c : GazeCalibrator) (f : FacialStructure) : ℚ :=
  match c.face_baseline, c.eye_baseline with
  | some fb, some eb =>
      let face_width_diff := |f.face_dimensions.1 - fb.width|
      let face_height_diff := |f.face_dimensions.2 - fb.height|
      let size_consistency := 1 - min 1 ((face_width_diff + face_height_diff) / 200)
      let eye_dist_diff := |f.eye_distance - eb.distance|
      let eye_consistency := 1 - min 1 (eye_dist_diff / 50)
      (size_consistency + eye_consistency) / 2
  | _, _ => 0

/-- `np.clip(x, lo, hi)` for `lo ≤ hi`: `min (max x lo) hi`. -/
noncomputable def clip (x lo hi : ℝ) : ℝ := min (max x lo) hi

/-- The calibrated-gaze dict returned by `calibrated_gaze_prediction`,
src/core/gaze_calibrator.py lines 131-137. The clamped angles live in `ℝ`
because the clamp bounds are multiples of pi. -/
structure CalibratedGaze where
  calibrated_yaw : ℝ
  calibrated_pitch : ℝ
  raw_yaw : ℚ
  raw_pitch : ℚ
  confidence : ℚ

/-- `calibrated_gaze_prediction`, src/core/gaze_calibrator.py lines
106-137: absent unless calibrated (matching the three baselines is the
`is_calibrated` guard); otherwise offset by the neutral pose, scale by the
face-size ratio, and clip to [-pi/2, pi/2] and [-pi/3, pi/3]. -/
noncomputable def calibrated_gaze_prediction (c : GazeCalibrator) (g : RawGaze)
    (f : FacialStructure) : Option CalibratedGaze :=
  match c.face_baseline, c.eye_baseline, c.head_pose_baseline with
  | some fb, some _, some hb =>
      let raw_yaw := g.yaw.getD 0
      let raw_pitch := g.pitch.getD 0
      let head_yaw_offset := raw_yaw - hb.yaw
      let head_pitch_offset := raw_pitch - hb.pitch
      let face_scale_x := f.face_dimensions.1 / fb.width
      let face_scale_y := f.face_dimensions.2 / fb.height
      some
        { calibrated_yaw :=
            clip ((head_yaw_offset * face_scale_x : ℚ) : ℝ)
              (-(Real.pi / 2)) (Real.pi / 2)
          calibrated_pitch :=
            clip ((head_pitch_offset * face_scale_y : ℚ) : ℝ)
              (-(Real.pi / 3)) (Real.pi / 3)
          raw_yaw := raw_yaw
          raw_pitch := raw_pitch
          confidence := calculate_confidence c f }
  | _, _, _ => none

/-- n-fold repetition of `update_baseline` with a fixed present sample. -/
def iterate_update : Nat → GazeCalibrator → RawGaze → FacialStructure → GazeCalibrator
  | 0, c, _, _ => c
  | n + 1, c, g, f => iterate_update n (update_baseline c g (some f)).2 g f

/-- A neutral raw-pose sample for the concrete calibration run. -/
def calibGaze : RawGaze where
  yaw := some 0
  pitch := some 0

/-- A fixed 100x100 face sample for the concrete calibration run. -/
def calibFace : FacialStructure where
  face_dimensions := (100, 100)
  eye_distance := 50
  eye_center := (0, 0)
  left_eye := (-25, 0)
  right_eye := (25, 0)
  nose_tip := some (0, 20)

/-- A wider (131x100) face sample arriving after calibration. -/
def calibFaceWide : FacialStructure :=
  { calibFace with face_dimensions := (131, 100) }

/-- The calibrator right after its 30th accumulated frame (29 identical
updates, then the threshold-crossing 30th). -/
def calibratedAt30 : GazeCalibrator :=
  (update_baseline (iterate_update 29 initCalibrator calibGaze calibFace)
    calibGaze (some calibFace)).2

/-- Justification for carrying the squared head-movement velocity: for a
nonnegative threshold `c`, the source comparison
`sqrt (dy² + dp²) > c` agrees with the embedded comparison
`dy² + dp² > c²`. -/
theorem velocity_comparison_bridge (dy dp c : ℚ) (hc : 0 ≤ c) :
    ((c : ℝ) < Real.sqrt ((dy : ℝ) ^ 2 + (dp : ℝ) ^ 2)) ↔ (c ^ 2 < dy ^ 2 + dp ^ 2) := by
  rw [show ((dy : ℝ) ^ 2 + (dp : ℝ) ^ 2) = ((dy ^ 2 + dp ^ 2 : ℚ) : ℝ) by push_cast; ring]
  rw [Real.lt_sqrt (by exact_mod_cast hc)]
  constructor
  · intro h
    exact_mod_cast h
  · intro h
    exact_mod_cast h

@[simp]
lemma track_looking_away_fst_config (s : DetectorState) (a : Bool) (n : ℚ) :
    ((track_looking_away s a n).1).config = s.config := by
  cases a <;> cases hx : s.looking_away_start <;> simp [track_looking_away, hx]

@[simp]
lemma track_looking_away_fst_suspicion_score (s : DetectorState) (a : Bool) (n : ℚ) :
    ((track_looking_away s a n).1).suspicion_score = s.suspicion_score := by
  cases a <;> cases hx : s.looking_away_start <;> simp [track_looking_away, hx]

@[simp]
lemma track_looking_away_fst_head_movement_history (s : DetectorState) (a : Bool) (n : ℚ) :
    ((track_looking_away s a n).1).head_movement_history = s.head_movement_history := by
  cases a <;> cases hx : s.looking_away_start <;> simp [track_looking_away, hx]

@[simp]
lemma track_looking_away_fst_cheating_alerts (s : DetectorState) (a : Bool) (n : ℚ) :
    ((track_looking_away s a n).1).cheating_alerts = s.cheating_alerts := by
  cases a <;> cases hx : s.looking_away_start <;> simp [track_looking_away, hx]

@[simp]
lemma track_looking_away_fst_last_alert_time (s : DetectorState) (a : Bool) (n : ℚ) :
    ((track_looking_away s a n).1).last_alert_time = s.last_alert_time := by
  cases a <;> cases hx : s.looking_away_start <;> simp [track_looking_away, hx]

@[simp]
lemma track_looking_away_fst_alert_active (s : DetectorState) (a : Bool) (n : ℚ) :
    ((track_looking_away s a n).1).alert_active = s.alert_active := by
  cases a <;> cases hx : s.looking_away_start <;> simp [track_looking_away, hx]

@[simp]
lemma track_looking_away_fst_repeated_patterns (s : DetectorState) (a : Bool) (n : ℚ) :
    ((track_looking_away s a n).1).repeated_patterns = s.repeated_patterns := by
  cases a <;> cases hx : s.looking_away_start <;> simp [track_looking_away, hx]

@[simp]
lemma calculate_head_movement_fst (s : DetectorState) (yaw pitch : ℚ) :
    (calculate_head_movement s yaw pitch).1 =
      { s with head_movement_history := ((yaw, pitch) :: s.head_movement_history).take 50 } := by
  cases hx : s.head_movement_history <;> simp [calculate_head_movement, hx]

@[simp]
lemma update_pattern_detection_config (s : DetectorState) (yaw pitch now : ℚ) :
    (update_pattern_detection s yaw pitch now).config = s.config := by
  simp [update_pattern_detection]

@[simp]
lemma update_pattern_detection_suspicion_score (s : DetectorState) (yaw pitch now : ℚ) :
    (update_pattern_detection s yaw pitch now).suspicion_score = s.suspicion_score := by
  simp [update_pattern_detection]

@[simp]
lemma update_pattern_detection_cheating_alerts (s : DetectorState) (yaw pitch now : ℚ) :
    (update_pattern_detection s yaw pitch now).cheating_alerts = s.cheating_alerts := by
  simp [update_pattern_detection]

@[simp]
lemma update_pattern_detection_last_alert_time (s : DetectorState) (yaw pitch now : ℚ) :
    (update_pattern_detection s yaw pitch now).last_alert_time = s.last_alert_time := by
  simp [update_pattern_detection]

@[simp]
lemma update_pattern_detection_alert_active (s : DetectorState) (yaw pitch now : ℚ) :
    (update_pattern_detection s yaw pitch now).alert_active = s.alert_active := by
  simp [update_pattern_detection]

@[simp]
lemma determine_alert_level_snd_suspicion_score (s : DetectorState) (d n : ℚ) :
    ((determine_alert_level s d n).2).suspicion_score = s.suspicion_score := by
  unfold determine_alert_level trigger_alert
  split_ifs <;> rfl

@[simp]
lemma determine_alert_level_snd_config (s : DetectorState) (d n : ℚ) :
    ((determine_alert_level s d n).2).config = s.config := by
  unfold determine_alert_level trigger_alert
  split_ifs <;> rfl

/-- During the cooldown window `_determine_alert_level` returns without
touching the state, src/core/detect.py lines 219-223. -/
lemma determine_alert_level_cooldown (s : DetectorState) (d n : ℚ)
    (h : n - s.last_alert_time < s.config.ALERT_COOLDOWN) :
    determine_alert_level s d n =
      ((if s.alert_active then "ONGOING_ALERT" else "NO_ALERT"), s) := by
  unfold determine_alert_level
  rw [if_pos h]
  cases s.alert_active <;> rfl

/-- The post-call suspicion score of a frame that passes the input guards:
the clamped update of src/core/detect.py lines 132-133. -/
lemma analyzeValid_snd_suspicion_score (s : DetectorState) (g : GazeSample) (now : ℚ) :
    ((analyzeValid s g now).2).suspicion_score =
      min s.config.MAX_SUSPICION_SCORE (max 0 (s.suspicion_score +
        calculate_suspicion_increase s.config
          (is_looking_away s.config g.calibrated_yaw g.calibrated_pitch)
          (track_looking_away s
            (is_looking_away s.config g.calibrated_yaw g.calibrated_pitch) now).2
          (calculate_head_movement
            (track_looking_away s
              (is_looking_away s.config g.calibrated_yaw g.calibrated_pitch) now).1
            g.calibrated_yaw g.calibrated_pitch).2
          g.calibrated_yaw g.calibrated_pitch)) := by
  simp [analyzeValid]

@[simp]
lemma analyzeValid_snd_config (s : DetectorState) (g : GazeSample) (now : ℚ) :
    ((analyzeValid s g now).2).config = s.config := by
  simp [analyzeValid]

@[simp]
lemma analyze_gaze_behavior_snd_config (s : DetectorState) (cg : Option GazeSample)
    (fs : Option FacialStructure) (ts now : ℚ) :
    ((analyze_gaze_behavior s cg fs ts now).2).config = s.config := by
  rcases cg with _ | g <;> rcases fs with _ | f
  · rfl
  · rfl
  · rfl
  · simp only [analyze_gaze_behavior]
    split_ifs <;> simp

/-- The `suspicion_score` key of the returned result dict equals the
post-call state attribute (both early returns and the full path read
`self.suspicion_score` after any update). -/
lemma analyze_gaze_behavior_fst_suspicion_score (s : DetectorState)
    (cg : Option GazeSample) (fs : Option FacialStructure) (ts now : ℚ) :
    ((analyze_gaze_behavior s cg fs ts now).1).suspicion_score =
      ((analyze_gaze_behavior s cg fs ts now).2).suspicion_score := by
  rcases cg with _ | g <;> rcases fs with _ | f <;>
    simp only [analyze_gaze_behavior] <;> try rfl
  split_ifs with h
  · rfl
  · simp [analyzeValid, create_detection_result]

/-- Claim C10: `frame_timestamp` is dead: two calls agreeing on state,
inputs and wall clock but differing arbitrarily in `frame_timestamp`
return the same result and the same post-state. The embedded
`analyze_gaze_behavior` never reads its `frame_timestamp` argument, exactly
as src/core/detect.py lines 89-148 never mention the parameter after the
signature. -/
theorem frame_timestamp_never_read (s : DetectorState) (cg : Option GazeSample)
    (fs : Option FacialStructure) (ts₁ ts₂ now : ℚ) :
    analyze_gaze_behavior s cg fs ts₁ now = analyze_gaze_behavior s cg fs ts₂ now := rfl

/-- Claim C3, counterexample: a call with absent `calibrated_gaze` returns a
result whose `alert_level` is the string "No gaze data", not "NO_ALERT"
(src/core/detect.py line 94 passes the message as the `alert_level`
positional argument of `_create_detection_result`). -/
theorem invalid_input_alert_level_counterexample :
    ((analyze_gaze_behavior (initState defaultConfig 0) none none 0 0).1).alert_level
        = "No gaze data" ∧
      ("No gaze data" : String) ≠ "NO_ALERT" := by
  exact ⟨rfl, by decide⟩

/-- Claim C3, amended: with an absent `calibrated_gaze` or `facial_structure`
the call returns the "No gaze data" result, and with present inputs but
`confidence < 0.3` the "Low confidence gaze data" result; in both cases the
`alert_level` field is that message string (not "NO_ALERT") and the detector
state is returned entirely unchanged. -/
theorem invalid_input_no_mutation (s : DetectorState) (cg : Option GazeSample)
    (fs : Option FacialStructure) (ts now : ℚ) :
    (cg = none ∨ fs = none →
      analyze_gaze_behavior s cg fs ts now =
        (create_detection_result s false "No gaze data" now none, s)) ∧
    (∀ g f, cg = some g → fs = some f → g.confidence < 0.3 →
      analyze_gaze_behavior s cg fs ts now =
        (create_detection_result s false "Low confidence gaze data" now none, s)) := by
  constructor
  · rintro (rfl | rfl)
    · rfl
    · cases cg <;> rfl
  · rintro g f rfl rfl hconf
    simp only [analyze_gaze_behavior]
    rw [if_pos hconf]

/-- Concrete instance of `invalid_input_no_mutation`: an absent-gaze call on
a fresh detector, and a confidence-0.1 call, each return the corresponding
message result with the state unchanged. -/
theorem invalid_input_no_mutation_witness :
    (analyze_gaze_behavior (initState defaultConfig 0) none none 0 0 =
      (create_detection_result (initState defaultConfig 0) false "No gaze data" 0 none,
        initState defaultConfig 0)) ∧
    (analyze_gaze_behavior (initState defaultConfig 0)
        (some { calibrated_yaw := 0, calibrated_pitch := 0, confidence := 0.1 })
        (some sampleStructure) 0 0 =
      (create_detection_result (initState defaultConfig 0) false
          "Low confidence gaze data" 0 none,
        initState defaultConfig 0)) :=
  ⟨(invalid_input_no_mutation (initState defaultConfig 0) none none 0 0).1 (Or.inl rfl),
   (invalid_input_no_mutation (initState defaultConfig 0)
      (some { calibrated_yaw := 0, calibrated_pitch := 0, confidence := 0.1 })
      (some sampleStructure) 0 0).2
    { calibrated_yaw := 0, calibrated_pitch := 0, confidence := 0.1 }
    sampleStructure rfl rfl (by norm_num)⟩

/-- Claim C9, counterexample: `get_session_summary` called on the same state
at two successive wall-clock instants returns different content, because
`session_duration = time.time() - session_start_time` is re-derived from the
clock on every call (src/core/detect.py line 287). -/
theorem session_summary_counterexample :
    get_session_summary (initState defaultConfig 0) 1 ≠
      get_session_summary (initState defaultConfig 0) 2 := by
  intro h
  have h2 := congrArg SessionSummary.session_duration h
  simp only [get_session_summary, initState] at h2
  norm_num at h2

/-- Claim C9, amended: every summary field except `session_duration` and
`away_time_percentage` is independent of the call instant, two calls at the
same instant return identical content, but `session_duration` is re-derived
from the wall clock on each call and differs exactly when the clock
advanced. -/
theorem session_summary_clock_dependence (s : DetectorState) (t₁ t₂ : ℚ) :
    (get_session_summary s t₁).total_alerts = (get_session_summary s t₂).total_alerts ∧
    (get_session_summary s t₁).total_looking_away_time
      = (get_session_summary s t₂).total_looking_away_time ∧
    (get_session_summary s t₁).final_suspicion_score
      = (get_session_summary s t₂).final_suspicion_score ∧
    (get_session_summary s t₁).repeated_patterns
      = (get_session_summary s t₂).repeated_patterns ∧
    (get_session_summary s t₁).alerts = (get_session_summary s t₂).alerts ∧
    (get_session_summary s t₁).behavior_analysis
      = (get_session_summary s t₂).behavior_analysis ∧
    ((get_session_summary s t₁).session_duration
        = (get_session_summary s t₂).session_duration ↔ t₁ = t₂) ∧
    (t₁ = t₂ → get_session_summary s t₁ = get_session_summary s t₂) := by
  refine ⟨rfl, rfl, rfl, rfl, rfl, rfl, ?_, ?_⟩
  · simp [get_session_summary, sub_left_inj]
  · rintro rfl
    rfl

/-- Concrete instance of `session_summary_clock_dependence` at `t₁ = t₂ = 5`,
discharging its inner implications. -/
theorem session_summary_clock_dependence_witness :
    ((get_session_summary (initState defaultConfig 0) 5).session_duration
        = (get_session_summary (initState defaultConfig 0) 5).session_duration ↔
          (5 : ℚ) = 5) ∧
    get_session_summary (initState defaultConfig 0) 5
      = get_session_summary (initState defaultConfig 0) 5 :=
  ⟨(session_summary_clock_dependence (initState defaultConfig 0) 5 5).2.2.2.2.2.2.1,
   (session_summary_clock_dependence (initState defaultConfig 0) 5 5).2.2.2.2.2.2.2 rfl⟩

/-- Claim C4, counterexample: a call at pose (0, 0) (not looking away) whose
squared head-movement velocity 2 exceeds `HEAD_MOVEMENT_THRESHOLD ^ 2`
leaves the score at `50 + RECOVERY_RATE = 49.8`: the final
`increase = RECOVERY_RATE` overwrite on src/core/detect.py line 213 discards
the head-movement penalty added on line 205, so the penalty is not applied
on top of the recovery branch. -/
theorem head_penalty_not_unconditional_counterexample :
    ((0 : ℚ) - 1) ^ 2 + ((0 : ℚ) - 1) ^ 2 > defaultConfig.HEAD_MOVEMENT_THRESHOLD ^ 2 ∧
    is_looking_away defaultConfig 0 0 = false ∧
    ((analyze_gaze_behavior headMoveState (some attentiveGaze)
        (some sampleStructure) 0 100).2).suspicion_score
      = 50 + defaultConfig.RECOVERY_RATE ∧
    (50 + defaultConfig.RECOVERY_RATE : ℚ)
      ≠ 50 + (defaultConfig.RECOVERY_RATE + defaultConfig.HEAD_MOVEMENT_PENALTY) := by
  refine ⟨by norm_num [defaultConfig], by norm_num [is_looking_away, defaultConfig],
    ?_, by norm_num [defaultConfig]⟩
  have hconf : ¬ (attentiveGaze.confidence < 0.3) := by norm_num [attentiveGaze]
  simp only [analyze_gaze_behavior]
  rw [if_neg hconf, analyzeValid_snd_suspicion_score]
  norm_num [headMoveState, initState, defaultConfig, attentiveGaze, is_looking_away,
    track_looking_away, calculate_head_movement, calculate_suspicion_increase]

/-- Claim C4, amended: in `_calculate_suspicion_increase` the head-movement
penalty is added on top of the away branch (before the duration multiplier),
but when the subject is not looking away the final recovery assignment
overwrites the accumulated delta, so the delta is exactly `RECOVERY_RATE`
regardless of head velocity. -/
theorem head_penalty_only_in_away_branch (cfg : Config) (dur velSq yaw pitch : ℚ) :
    calculate_suspicion_increase cfg false dur velSq yaw pitch = cfg.RECOVERY_RATE ∧
    (velSq > cfg.HEAD_MOVEMENT_THRESHOLD ^ 2 → ¬ dur > cfg.SUSPICIOUS_GAZE_THRESHOLD →
      calculate_suspicion_increase cfg true dur velSq yaw pitch =
        calculate_suspicion_increase cfg true dur 0 yaw pitch
          + cfg.HEAD_MOVEMENT_PENALTY) := by
  constructor
  · rfl
  · intro hv hd
    have h0 : ¬ (0 : ℚ) > cfg.HEAD_MOVEMENT_THRESHOLD ^ 2 :=
      not_lt.mpr (sq_nonneg _)
    simp [calculate_suspicion_increase, hv, hd, h0]

/-- Concrete instance of `head_penalty_only_in_away_branch` at the default
configuration with squared velocity 1 and duration 0. -/
theorem head_penalty_only_in_away_branch_witness :
    calculate_suspicion_increase defaultConfig false 0 1 0 0
        = defaultConfig.RECOVERY_RATE ∧
    calculate_suspicion_increase defaultConfig true 0 1 0 0 =
      calculate_suspicion_increase defaultConfig true 0 0 0 0
        + defaultConfig.HEAD_MOVEMENT_PENALTY :=
  ⟨(head_penalty_only_in_away_branch defaultConfig 0 1 0 0).1,
   (head_penalty_only_in_away_branch defaultConfig 0 1 0 0).2
     (by norm_num [defaultConfig]) (by norm_num [defaultConfig])⟩

/-- Shared helper: the recovery overwrite on src/core/detect.py line 213
makes the delta of a not-looking-away frame exactly `RECOVERY_RATE`. -/
lemma calculate_suspicion_increase_not_away (cfg : Config) (dur velSq yaw pitch : ℚ) :
    calculate_suspicion_increase cfg false dur velSq yaw pitch = cfg.RECOVERY_RATE := rfl

/-- The suspicion score is within bounds after one `analyze_gaze_behavior`
call, whenever it was within bounds before and the configured maximum is
nonnegative. -/
lemma analyze_snd_score_bounds (s : DetectorState) (cg : Option GazeSample)
    (fs : Option FacialStructure) (ts now : ℚ)
    (hM : 0 ≤ s.config.MAX_SUSPICION_SCORE)
    (h0 : 0 ≤ s.suspicion_score) (h1 : s.suspicion_score ≤ s.config.MAX_SUSPICION_SCORE) :
    0 ≤ ((analyze_gaze_behavior s cg fs ts now).2).suspicion_score ∧
      ((analyze_gaze_behavior s cg fs ts now).2).suspicion_score
        ≤ s.config.MAX_SUSPICION_SCORE := by
  rcases cg with _ | g <;> rcases fs with _ | f
  · exact ⟨h0, h1⟩
  · exact ⟨h0, h1⟩
  · exact ⟨h0, h1⟩
  · simp only [analyze_gaze_behavior]
    split_ifs with h
    · exact ⟨h0, h1⟩
    · rw [analyzeValid_snd_suspicion_score]
      exact ⟨le_min hM (le_max_left 0 _), min_le_left _ _⟩

/-- Along any reachable run, the suspicion score stays in
`[0, MAX_SUSPICION_SCORE]` (for a nonnegative configured maximum). -/
lemma reachable_score_invariant (s : DetectorState) (h : Reachable s) :
    0 ≤ s.config.MAX_SUSPICION_SCORE →
      0 ≤ s.suspicion_score ∧ s.suspicion_score ≤ s.config.MAX_SUSPICION_SCORE := by
  induction h with
  | init cfg t =>
      intro hM
      exact ⟨le_refl 0, hM⟩
  | analyze s cg fs ts now hs ih =>
      intro hM
      rw [analyze_gaze_behavior_snd_config] at hM ⊢
      have hr := ih hM
      exact analyze_snd_score_bounds s cg fs ts now hM hr.1 hr.2
  | reset s hs ih =>
      intro hM
      exact ih hM

/-- Claim C1: for every reachable detector state (with its nonnegative
configured maximum) and every input, the `suspicion_score` after the
`analyze_gaze_behavior` call — both the post-call state attribute and the
`suspicion_score` field of the returned result — lies within
`[0, MAX_SUSPICION_SCORE]`, for arbitrary inputs including repeated
high-penalty frames (src/core/detect.py lines 132-133 clamp every update). -/
theorem suspicion_score_always_clamped (s : DetectorState) (cg : Option GazeSample)
    (fs : Option FacialStructure) (ts now : ℚ) (h : Reachable s)
    (hM : 0 ≤ s.config.MAX_SUSPICION_SCORE) :
    (0 ≤ ((analyze_gaze_behavior s cg fs ts now).2).suspicion_score ∧
      ((analyze_gaze_behavior s cg fs ts now).2).suspicion_score
        ≤ s.config.MAX_SUSPICION_SCORE) ∧
    (0 ≤ ((analyze_gaze_behavior s cg fs ts now).1).suspicion_score ∧
      ((analyze_gaze_behavior s cg fs ts now).1).suspicion_score
        ≤ s.config.MAX_SUSPICION_SCORE) := by
  have hr := reachable_score_invariant s h hM
  have h2 := analyze_snd_score_bounds s cg fs ts now hM hr.1 hr.2
  refine ⟨h2, ?_⟩
  rw [analyze_gaze_behavior_fst_suspicion_score]
  exact h2

/-- Concrete instance of `suspicion_score_always_clamped` on a fresh
default-configuration detector fed one confident frame. -/
theorem suspicion_score_always_clamped_witness :
    (0 ≤ ((analyze_gaze_behavior (initState defaultConfig 0) (some attentiveGaze)
        (some sampleStructure) 0 0).2).suspicion_score ∧
      ((analyze_gaze_behavior (initState defaultConfig 0) (some attentiveGaze)
        (some sampleStructure) 0 0).2).suspicion_score
        ≤ (initState defaultConfig 0).config.MAX_SUSPICION_SCORE) ∧
    (0 ≤ ((analyze_gaze_behavior (initState defaultConfig 0) (some attentiveGaze)
        (some sampleStructure) 0 0).1).suspicion_score ∧
      ((analyze_gaze_behavior (initState defaultConfig 0) (some attentiveGaze)
        (some sampleStructure) 0 0).1).suspicion_score
        ≤ (initState defaultConfig 0).config.MAX_SUSPICION_SCORE) :=
  suspicion_score_always_clamped (initState defaultConfig 0) (some attentiveGaze)
    (some sampleStructure) 0 0 (Reachable.init defaultConfig 0)
    (by norm_num [initState, defaultConfig])

/-- Claim C8: on a valid frame (confidence ≥ 0.3) in which the subject is
not looking away, the default-configuration score moves to
`max 0 (score + RECOVERY_RATE)`: it never increases, it stays at 0 once
there, and it decreases by exactly `|RECOVERY_RATE| = 0.2` while at least
0.2 above 0 — monotone decay to 0 absent away events. -/
theorem recovery_decreases_score (s : DetectorState) (g : GazeSample)
    (f : FacialStructure) (ts now : ℚ)
    (hcfg : s.config = defaultConfig)
    (hconf : ¬ g.confidence < 0.3)
    (haway : is_looking_away s.config g.calibrated_yaw g.calibrated_pitch = false)
    (h0 : 0 ≤ s.suspicion_score) (h1 : s.suspicion_score ≤ 100) :
    ((analyze_gaze_behavior s (some g) (some f) ts now).2).suspicion_score
        = max 0 (s.suspicion_score + defaultConfig.RECOVERY_RATE) ∧
    ((analyze_gaze_behavior s (some g) (some f) ts now).2).suspicion_score
        ≤ s.suspicion_score ∧
    (s.suspicion_score = 0 →
      ((analyze_gaze_behavior s (some g) (some f) ts now).2).suspicion_score = 0) ∧
    (-defaultConfig.RECOVERY_RATE ≤ s.suspicion_score →
      ((analyze_gaze_behavior s (some g) (some f) ts now).2).suspicion_score
        = s.suspicion_score + defaultConfig.RECOVERY_RATE) := by
  have hR : defaultConfig.RECOVERY_RATE = -0.2 := rfl
  have hmain : ((analyze_gaze_behavior s (some g) (some f) ts now).2).suspicion_score
      = max 0 (s.suspicion_score + defaultConfig.RECOVERY_RATE) := by
    simp only [analyze_gaze_behavior]
    rw [if_neg hconf, analyzeValid_snd_suspicion_score, haway,
      calculate_suspicion_increase_not_away, hcfg]
    refine min_eq_right (max_le (by norm_num [defaultConfig]) ?_)
    rw [hR]
    norm_num [defaultConfig]
    linarith
  refine ⟨hmain, ?_, ?_, ?_⟩
  · rw [hmain, hR]
    apply max_le h0
    linarith
  · intro hz
    rw [hmain, hz, hR]
    norm_num
  · intro hge
    rw [hmain]
    apply max_eq_right
    rw [hR] at hge ⊢
    linarith

/-- Concrete instance of `recovery_decreases_score`: a score-50 detector fed
one confident straight-ahead frame drops to 49.8. -/
theorem recovery_decreases_score_witness :
    ((analyze_gaze_behavior headMoveState (some attentiveGaze)
        (some sampleStructure) 0 100).2).suspicion_score
        = max 0 (headMoveState.suspicion_score + defaultConfig.RECOVERY_RATE) ∧
    ((analyze_gaze_behavior headMoveState (some attentiveGaze)
        (some sampleStructure) 0 100).2).suspicion_score
        ≤ headMoveState.suspicion_score ∧
    (headMoveState.suspicion_score = 0 →
      ((analyze_gaze_behavior headMoveState (some attentiveGaze)
        (some sampleStructure) 0 100).2).suspicion_score = 0) ∧
    (-defaultConfig.RECOVERY_RATE ≤ headMoveState.suspicion_score →
      ((analyze_gaze_behavior headMoveState (some attentiveGaze)
        (some sampleStructure) 0 100).2).suspicion_score
        = headMoveState.suspicion_score + defaultConfig.RECOVERY_RATE) :=
  recovery_decreases_score headMoveState attentiveGaze sampleStructure 0 100
    rfl (by norm_num [attentiveGaze])
    (by norm_num [is_looking_away, headMoveState, initState, defaultConfig, attentiveGaze])
    (by norm_num [headMoveState, initState]) (by norm_num [headMoveState, initState])

/-- During the cooldown window a valid frame appends no alert, leaves
`last_alert_time` untouched, and reports `ONGOING_ALERT` or `NO_ALERT`
according to `alert_active` (src/core/detect.py lines 219-223). -/
lemma analyzeValid_cooldown (s : DetectorState) (g : GazeSample) (now : ℚ)
    (h : now - s.last_alert_time < s.config.ALERT_COOLDOWN) :
    ((analyzeValid s g now).2).cheating_alerts = s.cheating_alerts ∧
    ((analyzeValid s g now).2).last_alert_time = s.last_alert_time ∧
    ((analyzeValid s g now).1).alert_level
      = (if s.alert_active then "ONGOING_ALERT" else "NO_ALERT") := by
  simp only [analyzeValid]
  simp [determine_alert_level_cooldown, h, create_detection_result]

/-- No call made during the cooldown window — valid or not — appends an
alert or advances `last_alert_time`. -/
lemma analyze_cooldown_no_new_alert (s : DetectorState) (cg : Option GazeSample)
    (fs : Option FacialStructure) (ts now : ℚ)
    (h : now - s.last_alert_time < s.config.ALERT_COOLDOWN) :
    ((analyze_gaze_behavior s cg fs ts now).2).cheating_alerts = s.cheating_alerts ∧
    ((analyze_gaze_behavior s cg fs ts now).2).last_alert_time = s.last_alert_time := by
  rcases cg with _ | g <;> rcases fs with _ | f
  · exact ⟨rfl, rfl⟩
  · exact ⟨rfl, rfl⟩
  · exact ⟨rfl, rfl⟩
  · simp only [analyze_gaze_behavior]
    split_ifs with hc
    · exact ⟨rfl, rfl⟩
    · have := analyzeValid_cooldown s g now h
      exact ⟨this.1, this.2.1⟩

/-- Claim C5: once an alert has fired at time `T` (`last_alert_time = T`),
any sequence of calls all made before `T + ALERT_COOLDOWN` appends no new
alert of any reason and never advances `last_alert_time`, regardless of
score, duration or pattern counters; moreover any single valid call inside
the window returns `ONGOING_ALERT` when `alert_active` holds and `NO_ALERT`
otherwise. -/
theorem no_alert_during_cooldown (s : DetectorState) (T : ℚ) (calls : List CallInput)
    (hT : s.last_alert_time = T)
    (hwin : ∀ c ∈ calls, c.now - T < s.config.ALERT_COOLDOWN) :
    ((run_calls s calls).cheating_alerts = s.cheating_alerts ∧
      (run_calls s calls).last_alert_time = T) ∧
    (∀ (s' : DetectorState) (g : GazeSample) (f : FacialStructure) (ts now : ℚ),
      s'.config = s.config → s'.last_alert_time = T →
      now - T < s.config.ALERT_COOLDOWN → ¬ g.confidence < 0.3 →
      ((analyze_gaze_behavior s' (some g) (some f) ts now).1).alert_level
        = (if s'.alert_active then "ONGOING_ALERT" else "NO_ALERT")) := by
  constructor
  · induction calls generalizing s with
    | nil => exact ⟨rfl, hT⟩
    | cons c rest ih =>
        have hc : c.now - s.last_alert_time < s.config.ALERT_COOLDOWN := by
          rw [hT]
          exact hwin c (List.mem_cons_self c rest)
        have hstep := analyze_cooldown_no_new_alert s c.calibrated_gaze
          c.facial_structure c.frame_timestamp c.now hc
        have hrest := ih ((analyze_gaze_behavior s c.calibrated_gaze
            c.facial_structure c.frame_timestamp c.now).2)
          (by rw [hstep.2, hT])
          (by
            intro d hd
            rw [analyze_gaze_behavior_snd_config]
            exact hwin d (List.mem_cons_of_mem c hd))
        refine ⟨?_, hrest.2⟩
        rw [show run_calls s (c :: rest) = run_calls (analyze_gaze_behavior s
          c.calibrated_gaze c.facial_structure c.frame_timestamp c.now).2 rest from rfl]
        rw [hrest.1, hstep.1]
  · intro s' g f ts now hcfg hlast hnow hconf
    have h : now - s'.last_alert_time < s'.config.ALERT_COOLDOWN := by
      rw [hlast, hcfg]
      exact hnow
    simp only [analyze_gaze_behavior]
    rw [if_neg hconf]
    exact (analyzeValid_cooldown s' g now h).2.2

/-- Concrete instance of `no_alert_during_cooldown`: one valid call at time 5
with `last_alert_time = 0` and cooldown 10 appends nothing and reports
`NO_ALERT` (no alert is active). -/
theorem no_alert_during_cooldown_witness :
    ((run_calls (initState defaultConfig 0)
        [{ calibrated_gaze := some attentiveGaze
           facial_structure := some sampleStructure
           frame_timestamp := 3
           now := 5 }]).cheating_alerts = (initState defaultConfig 0).cheating_alerts ∧
      (run_calls (initState defaultConfig 0)
        [{ calibrated_gaze := some attentiveGaze
           facial_structure := some sampleStructure
           frame_timestamp := 3
           now := 5 }]).last_alert_time = 0) ∧
    ((analyze_gaze_behavior (initState defaultConfig 0) (some attentiveGaze)
        (some sampleStructure) 0 5).1).alert_level
      = (if (initState defaultConfig 0).alert_active then "ONGOING_ALERT"
         else "NO_ALERT") := by
  have h := no_alert_during_cooldown (initState defaultConfig 0) 0
    [{ calibrated_gaze := some attentiveGaze
       facial_structure := some sampleStructure
       frame_timestamp := 3
       now := 5 }] rfl
    (by
      intro c hc
      simp only [List.mem_singleton] at hc
      subst hc
      norm_num [initState, defaultConfig])
  exact ⟨h.1, h.2 (initState defaultConfig 0) attentiveGaze sampleStructure 0 5 rfl rfl
    (by norm_num [initState, defaultConfig]) (by norm_num [attentiveGaze])⟩

@[simp]
lemma establish_baseline_face_dimensions (c : GazeCalibrator) :
    (establish_baseline c).face_dimensions = c.face_dimensions := by
  unfold establish_baseline
  split <;> rfl

@[simp]
lemma establish_baseline_eye_distances (c : GazeCalibrator) :
    (establish_baseline c).eye_distances = c.eye_distances := by
  unfold establish_baseline
  split <;> rfl

@[simp]
lemma establish_baseline_head_poses (c : GazeCalibrator) :
    (establish_baseline c).head_poses = c.head_poses := by
  unfold establish_baseline
  split <;> rfl

@[simp]
lemma establish_baseline_frame_count (c : GazeCalibrator) :
    (establish_baseline c).frame_count = c.frame_count := by
  unfold establish_baseline
  split <;> rfl

@[simp]
lemma establish_baseline_adaptation_frames (c : GazeCalibrator) :
    (establish_baseline c).adaptation_frames = c.adaptation_frames := by
  unfold establish_baseline
  split <;> rfl

/-- A below-threshold `update_baseline` call only accumulates. -/
lemma update_baseline_below (c : GazeCalibrator) (g : RawGaze) (f : FacialStructure)
    (h : c.frame_count + 1 < c.adaptation_frames) :
    update_baseline c g (some f) =
      (false, { c with
        face_dimensions := c.face_dimensions ++ [f.face_dimensions]
        eye_distances := c.eye_distances ++ [f.eye_distance]
        head_poses := c.head_poses ++ [(g.yaw.getD 0, g.pitch.getD 0)]
        frame_count := c.frame_count + 1 }) := by
  have h' : ¬ c.frame_count + 1 ≥ c.adaptation_frames := by omega
  simp [update_baseline, h']

/-- An at-or-above-threshold `update_baseline` call accumulates, then
(re-)establishes the baselines over the whole accumulator and returns
true. -/
lemma update_baseline_at_threshold (c : GazeCalibrator) (g : RawGaze) (f : FacialStructure)
    (h : c.adaptation_frames ≤ c.frame_count + 1) :
    update_baseline c g (some f) =
      (true, establish_baseline { c with
        face_dimensions := c.face_dimensions ++ [f.face_dimensions]
        eye_distances := c.eye_distances ++ [f.eye_distance]
        head_poses := c.head_poses ++ [(g.yaw.getD 0, g.pitch.getD 0)]
        frame_count := c.frame_count + 1 }) := by
  have h' : c.frame_count + 1 ≥ c.adaptation_frames := h
  simp [update_baseline, h']

/-- Repeated below-threshold updates just accumulate replicated samples. -/
lemma iterate_update_accumulate (n : ℕ) (c : GazeCalibrator) (g : RawGaze)
    (f : FacialStructure) (h : c.frame_count + n < c.adaptation_frames) :
    iterate_update n c g f = { c with
      face_dimensions := c.face_dimensions ++ List.replicate n f.face_dimensions
      eye_distances := c.eye_distances ++ List.replicate n f.eye_distance
      head_poses := c.head_poses ++ List.replicate n (g.yaw.getD 0, g.pitch.getD 0)
      frame_count := c.frame_count + n } := by
  induction n generalizing c with
  | zero =>
      cases c
      simp [iterate_update]
  | succ n ih =>
      obtain ⟨fb, eb, hb, af, fc, fd, ed, hp⟩ := c
      simp only [iterate_update]
      rw [update_baseline_below _ _ _ (by simp only at h ⊢; omega)]
      rw [ih _ (by simp only at h ⊢; omega)]
      simp [List.append_assoc, List.replicate_succ]
      omega

/-- The concrete 30-frame calibration run lands on `establish_baseline`
applied to a 30-sample accumulator. -/
lemma calibratedAt30_eq :
    calibratedAt30 = establish_baseline
      { initCalibrator with
        face_dimensions :=
          List.replicate 29 ((100 : ℚ), (100 : ℚ)) ++ [((100 : ℚ), (100 : ℚ))]
        eye_distances := List.replicate 29 (50 : ℚ) ++ [(50 : ℚ)]
        head_poses := List.replicate 29 ((0 : ℚ), (0 : ℚ)) ++ [((0 : ℚ), (0 : ℚ))]
        frame_count := 30 } := by
  unfold calibratedAt30
  rw [iterate_update_accumulate 29 initCalibrator calibGaze calibFace
    (by norm_num [initCalibrator])]
  rw [update_baseline_at_threshold _ _ _ (by norm_num [initCalibrator])]
  simp [initCalibrator, calibGaze, calibFace]

lemma calibratedAt30_frame_count : calibratedAt30.frame_count = 30 := by
  rw [calibratedAt30_eq]
  simp

lemma calibratedAt30_adaptation_frames : calibratedAt30.adaptation_frames = 30 := by
  rw [calibratedAt30_eq]
  simp [initCalibrator]

lemma calibratedAt30_face_dimensions :
    calibratedAt30.face_dimensions =
      List.replicate 29 ((100 : ℚ), (100 : ℚ)) ++ [((100 : ℚ), (100 : ℚ))] := by
  rw [calibratedAt30_eq]
  simp

lemma calibratedAt30_face_baseline_width :
    calibratedAt30.face_baseline.map FaceBaseline.width = some 100 := by
  rw [calibratedAt30_eq]
  unfold establish_baseline
  rw [if_pos (by simp)]
  simp only [Option.map_some]
  simp [mean, List.map_append, List.map_replicate, List.sum_append,
    List.sum_replicate, nsmul_eq_mul]
  norm_num

/-- The width of the face baseline after one more (31st) update with a
131-wide face: the mean over all 31 accumulated samples. -/
lemma calibratedAt31_face_baseline_width :
    ((update_baseline calibratedAt30 calibGaze (some calibFaceWide)).2).face_baseline.map
      FaceBaseline.width = some (3131 / 31) := by
  rw [update_baseline_at_threshold _ _ _
    (by rw [calibratedAt30_adaptation_frames, calibratedAt30_frame_count]; omega)]
  unfold establish_baseline
  rw [if_pos (by simp [calibratedAt30_face_dimensions])]
  simp only [Option.map_some]
  simp [calibratedAt30_face_dimensions, calibFaceWide, calibFace, mean,
    List.map_append, List.map_replicate, List.sum_append, List.sum_replicate,
    nsmul_eq_mul]
  norm_num

/-- Claim C2, counterexample: after the 30th accumulated frame has
established a face-width baseline of 100, the 31st `update_baseline` call
(face width 131) re-runs `_establish_baseline` (src/core/gaze_calibrator.py
lines 74-76 fire on every call with `frame_count >= 30`) and changes the
stored baseline to the 31-sample mean 3131/31 — the baselines are not
frozen at the 30th frame. -/
theorem baselines_not_frozen_counterexample :
    calibratedAt30.face_baseline.map FaceBaseline.width = some 100 ∧
    ((update_baseline calibratedAt30 calibGaze (some calibFaceWide)).2).face_baseline.map
      FaceBaseline.width = some (3131 / 31) ∧
    ((update_baseline calibratedAt30 calibGaze (some calibFaceWide)).2).face_baseline
      ≠ calibratedAt30.face_baseline := by
  refine ⟨calibratedAt30_face_baseline_width, calibratedAt31_face_baseline_width, ?_⟩
  intro h
  have hw := congrArg (Option.map FaceBaseline.width) h
  rw [calibratedAt30_face_baseline_width, calibratedAt31_face_baseline_width] at hw
  have := Option.some.inj hw
  norm_num at this

/-- Claim C2, amended: once the frame counter has reached the adaptation
threshold, every further `update_baseline` call with a present facial
structure appends the new sample and then re-derives all three baselines
as means (and population variances) over the entire accumulated data,
including the new sample — the accumulator keeps growing and the baselines
are recomputed on every such call rather than frozen at frame 30. -/
theorem baselines_rederived_every_frame (c : GazeCalibrator) (g : RawGaze)
    (f : FacialStructure) (h : c.adaptation_frames ≤ c.frame_count + 1) :
    (update_baseline c g (some f)).1 = true ∧
    ((update_baseline c g (some f)).2).face_dimensions
      = c.face_dimensions ++ [f.face_dimensions] ∧
    ((update_baseline c g (some f)).2).face_baseline = some
      { width := mean ((c.face_dimensions ++ [f.face_dimensions]).map Prod.fst)
        height := mean ((c.face_dimensions ++ [f.face_dimensions]).map Prod.snd)
        width_var := popVar ((c.face_dimensions ++ [f.face_dimensions]).map Prod.fst)
        height_var := popVar ((c.face_dimensions ++ [f.face_dimensions]).map Prod.snd) } ∧
    ((update_baseline c g (some f)).2).eye_baseline = some
      { distance := mean (c.eye_distances ++ [f.eye_distance])
        distance_var := popVar (c.eye_distances ++ [f.eye_distance]) } ∧
    ((update_baseline c g (some f)).2).head_pose_baseline = some
      { yaw := mean ((c.head_poses ++ [(g.yaw.getD 0, g.pitch.getD 0)]).map Prod.fst)
        pitch := mean ((c.head_poses ++ [(g.yaw.getD 0, g.pitch.getD 0)]).map Prod.snd)
        yaw_var := popVar ((c.head_poses ++ [(g.yaw.getD 0, g.pitch.getD 0)]).map Prod.fst)
        pitch_var := popVar ((c.head_poses ++ [(g.yaw.getD 0, g.pitch.getD 0)]).map Prod.snd) } := by
  rw [update_baseline_at_threshold c g f h]
  unfold establish_baseline
  rw [if_pos (by simp)]
  exact ⟨rfl, rfl, rfl, rfl, rfl⟩

/-- Concrete instance of `baselines_rederived_every_frame` on a one-sample
accumulator already past the threshold. -/
theorem baselines_rederived_every_frame_witness :
    (update_baseline { initCalibrator with
        frame_count := 30
        face_dimensions := [((100 : ℚ), (100 : ℚ))]
        eye_distances := [(50 : ℚ)]
        head_poses := [((0 : ℚ), (0 : ℚ))] } calibGaze (some calibFace)).1 = true ∧
    ((update_baseline { initCalibrator with
        frame_count := 30
        face_dimensions := [((100 : ℚ), (100 : ℚ))]
        eye_distances := [(50 : ℚ)]
        head_poses := [((0 : ℚ), (0 : ℚ))] } calibGaze (some calibFace)).2).face_dimensions
      = [((100 : ℚ), (100 : ℚ))] ++ [calibFace.face_dimensions] ∧
    ((update_baseline { initCalibrator with
        frame_count := 30
        face_dimensions := [((100 : ℚ), (100 : ℚ))]
        eye_distances := [(50 : ℚ)]
        head_poses := [((0 : ℚ), (0 : ℚ))] } calibGaze (some calibFace)).2).face_baseline = some
      { width := mean (([((100 : ℚ), (100 : ℚ))] ++ [calibFace.face_dimensions]).map Prod.fst)
        height := mean (([((100 : ℚ), (100 : ℚ))] ++ [calibFace.face_dimensions]).map Prod.snd)
        width_var := popVar (([((100 : ℚ), (100 : ℚ))] ++ [calibFace.face_dimensions]).map Prod.fst)
        height_var := popVar (([((100 : ℚ), (100 : ℚ))] ++ [calibFace.face_dimensions]).map Prod.snd) } ∧
    ((update_baseline { initCalibrator with
        frame_count := 30
        face_dimensions := [((100 : ℚ), (100 : ℚ))]
        eye_distances := [(50 : ℚ)]
        head_poses := [((0 : ℚ), (0 : ℚ))] } calibGaze (some calibFace)).2).eye_baseline = some
      { distance := mean ([(50 : ℚ)] ++ [calibFace.eye_distance])
        distance_var := popVar ([(50 : ℚ)] ++ [calibFace.eye_distance]) } ∧
    ((update_baseline { initCalibrator with
        frame_count := 30
        face_dimensions := [((100 : ℚ), (100 : ℚ))]
        eye_distances := [(50 : ℚ)]
        head_poses := [((0 : ℚ), (0 : ℚ))] } calibGaze (some calibFace)).2).head_pose_baseline = some
      { yaw := mean (([((0 : ℚ), (0 : ℚ))] ++ [(calibGaze.yaw.getD 0, calibGaze.pitch.getD 0)]).map Prod.fst)
        pitch := mean (([((0 : ℚ), (0 : ℚ))] ++ [(calibGaze.yaw.getD 0, calibGaze.pitch.getD 0)]).map Prod.snd)
        yaw_var := popVar (([((0 : ℚ), (0 : ℚ))] ++ [(calibGaze.yaw.getD 0, calibGaze.pitch.getD 0)]).map Prod.fst)
        pitch_var := popVar (([((0 : ℚ), (0 : ℚ))] ++ [(calibGaze.yaw.getD 0, calibGaze.pitch.getD 0)]).map Prod.snd) } :=
  baselines_rederived_every_frame
    { initCalibrator with
        frame_count := 30
        face_dimensions := [((100 : ℚ), (100 : ℚ))]
        eye_distances := [(50 : ℚ)]
        head_poses := [((0 : ℚ), (0 : ℚ))] } calibGaze calibFace
    (by norm_num [initCalibrator])

/-- Claim C6, counterexample: with the counter already at 30 (so the
upcoming call is the 31st accumulated frame, not the one on which the
counter first reaches 30), `update_baseline` still returns true —
contradicting "returns false on every other call, including all later
ones" (the guard on src/core/gaze_calibrator.py line 74 is `>=`, not a
first-time check). -/
theorem update_true_after_thirtieth_counterexample :
    calibratedAt30.frame_count = 30 ∧
    (update_baseline calibratedAt30 calibGaze (some calibFace)).1 = true := by
  refine ⟨calibratedAt30_frame_count, ?_⟩
  rw [update_baseline_at_threshold _ _ _
    (by rw [calibratedAt30_adaptation_frames, calibratedAt30_frame_count]; omega)]

/-- Claim C6, amended: `update_baseline` returns true exactly when the
facial structure is present and the incremented frame counter has reached
the adaptation threshold — that is, on the 30th accumulated frame and on
every later accumulated frame, not only on the 30th. -/
theorem update_baseline_true_iff (c : GazeCalibrator) (g : RawGaze)
    (fs : Option FacialStructure) :
    (update_baseline c g fs).1 = true ↔
      fs.isSome = true ∧ c.adaptation_frames ≤ c.frame_count + 1 := by
  rcases fs with _ | f
  · simp [update_baseline]
  · rw [update_baseline]
    simp only [Option.isSome_some, true_and]
    split_ifs with h
    · simpa using h
    · simpa using h

lemma clip_le_hi (x lo hi : ℝ) : clip x lo hi ≤ hi := min_le_right _ _

lemma lo_le_clip (x lo hi : ℝ) (h : lo ≤ hi) : lo ≤ clip x lo hi :=
  le_min (le_max_right _ _) h

/-- Claim C7: for every calibrated state and every input,
`calibrated_gaze_prediction` returns
`calibrated_yaw = clip ((raw_yaw − baseline_yaw) · (width/baseline_width), −π/2, π/2)`
and the analogous pitch formula with bounds ±π/3; in particular the
outputs always lie in those intervals for arbitrarily large raw angles,
and the pre-clamp values vanish when the raw pose equals the baseline
neutral pose (src/core/gaze_calibrator.py lines 106-137). -/
theorem calibrated_prediction_clamped (c : GazeCalibrator) (g : RawGaze)
    (f : FacialStructure) (fb : FaceBaseline) (eb : EyeBaseline) (hb : HeadPoseBaseline)
    (hf : c.face_baseline = some fb) (he : c.eye_baseline = some eb)
    (hh : c.head_pose_baseline = some hb) :
    ∃ r : CalibratedGaze,
      calibrated_gaze_prediction c g f = some r ∧
      r.calibrated_yaw =
        clip (((g.yaw.getD 0 - hb.yaw) * (f.face_dimensions.1 / fb.width) : ℚ) : ℝ)
          (-(Real.pi / 2)) (Real.pi / 2) ∧
      r.calibrated_pitch =
        clip (((g.pitch.getD 0 - hb.pitch) * (f.face_dimensions.2 / fb.height) : ℚ) : ℝ)
          (-(Real.pi / 3)) (Real.pi / 3) ∧
      -(Real.pi / 2) ≤ r.calibrated_yaw ∧ r.calibrated_yaw ≤ Real.pi / 2 ∧
      -(Real.pi / 3) ≤ r.calibrated_pitch ∧ r.calibrated_pitch ≤ Real.pi / 3 ∧
      (g.yaw.getD 0 = hb.yaw →
        (g.yaw.getD 0 - hb.yaw) * (f.face_dimensions.1 / fb.width) = 0) ∧
      (g.pitch.getD 0 = hb.pitch →
        (g.pitch.getD 0 - hb.pitch) * (f.face_dimensions.2 / fb.height) = 0) := by
  have hpi := Real.pi_pos
  simp only [calibrated_gaze_prediction, hf, he, hh]
  refine ⟨_, rfl, rfl, rfl, ?_, ?_, ?_, ?_, ?_, ?_⟩
  · exact lo_le_clip _ _ _ (by linarith)
  · exact clip_le_hi _ _ _
  · exact lo_le_clip _ _ _ (by linarith)
  · exact clip_le_hi _ _ _
  · intro h
    rw [h, sub_self, zero_mul]
  · intro h
    rw [h, sub_self, zero_mul]

/-- Concrete instance of `calibrated_prediction_clamped` on an explicitly
calibrated state fed the neutral sample. -/
theorem calibrated_prediction_clamped_witness :
    ∃ r : CalibratedGaze,
      calibrated_gaze_prediction
        { initCalibrator with
            face_baseline := some { width := 100, height := 100, width_var := 0, height_var := 0 }
            eye_baseline := some { distance := 50, distance_var := 0 }
            head_pose_baseline := some { yaw := 0, pitch := 0, yaw_var := 0, pitch_var := 0 } }
        calibGaze calibFace = some r ∧
      r.calibrated_yaw =
        clip (((calibGaze.yaw.getD 0 - 0) * (calibFace.face_dimensions.1 / 100) : ℚ) : ℝ)
          (-(Real.pi / 2)) (Real.pi / 2) ∧
      r.calibrated_pitch =
        clip (((calibGaze.pitch.getD 0 - 0) * (calibFace.face_dimensions.2 / 100) : ℚ) : ℝ)
          (-(Real.pi / 3)) (Real.pi / 3) ∧
      -(Real.pi / 2) ≤ r.calibrated_yaw ∧ r.calibrated_yaw ≤ Real.pi / 2 ∧
      -(Real.pi / 3) ≤ r.calibrated_pitch ∧ r.calibrated_pitch ≤ Real.pi / 3 ∧
      (calibGaze.yaw.getD 0 = 0 →
        (calibGaze.yaw.getD 0 - 0) * (calibFace.face_dimensions.1 / 100) = 0) ∧
      (calibGaze.pitch.getD 0 = 0 →
        (calibGaze.pitch.getD 0 - 0) * (calibFace.face_dimensions.2 / 100) = 0) :=
  calibrated_prediction_clamped
    { initCalibrator with
        face_baseline := some { width := 100, height := 100, width_var := 0, height_var := 0 }
        eye_baseline := some { distance := 50, distance_var := 0 }
        head_pose_baseline := some { yaw := 0, pitch := 0, yaw_var := 0, pitch_var := 0 } }
    calibGaze calibFace
    { width := 100, height := 100, width_var := 0, height_var := 0 }
    { distance := 50, distance_var := 0 }
    { yaw := 0, pitch := 0, yaw_var := 0, pitch_var := 0 }
    rfl rfl rfl

/-- Concrete instance of `update_baseline_true_iff`: a present sample on a
counter-29 calibrator returns true. -/
theorem update_baseline_true_iff_witness :
    (update_baseline { initCalibrator with frame_count := 29 }
      calibGaze (some calibFace)).1 = true :=
  (update_baseline_true_iff { initCalibrator with frame_count := 29 }
    calibGaze (some calibFace)).mpr ⟨rfl, by norm_num [initCalibrator]⟩
